import Mathlib

/-
Shallow embedding of the triage core of src/puch_mcp.py:
symptom/age extraction, severity classification, nearest-facility lookup.
Python strings are modeled as lists of characters (ASCII scope: the
phrase dictionary, level names and field names are all ASCII, and the
Python regex and str.lower are modeled on their ASCII behavior).
Python ints are Int, Python None/int/str/list/dict values are PyVal.
-/

abbrev Str := List Char

-- Python truthiness-free helpers over characters (ASCII scope).
def isPySpace (c : Char) : Bool :=
  c == ' ' || c == '\t' || c == '\n' || c == '\r' || c == '\x0b' || c == '\x0c'

-- \w of the regex: alphanumeric or underscore.
def isWordChar (c : Char) : Bool :=
  c.isAlphanum || c == '_'

-- str.lower(), character-wise (ASCII scope).
def pyLower (s : Str) : Str := s.map Char.toLower

-- str.strip(): drop leading and trailing whitespace.
def dropTrail (p : Char → Bool) (l : Str) : Str :=
  (l.reverse.dropWhile p).reverse

def pyStrip (l : Str) : Str :=
  dropTrail isPySpace (l.dropWhile isPySpace)

-- Python substring containment: p in l.
def isPrefixStr : Str → Str → Bool
  | [], _ => true
  | _ :: _, [] => false
  | c :: cs, d :: ds => c == d && isPrefixStr cs ds

def strIn (p : Str) : Str → Bool
  | [] => isPrefixStr p []
  | c :: t => isPrefixStr p (c :: t) || strIn p t

/-
_EMS_SYMPTOMS from src/puch_mcp.py lines 38-47, in source (insertion) order.
-/
def emsSymptoms : List (Str × List Str) :=
  [ ("chest_pain".data, ["chest pain".data, "pressure in chest".data, "tight chest".data]),
    ("breathlessness".data, ["short of breath".data, "breathless".data, "difficulty breathing".data]),
    ("unconscious".data, ["unconscious".data, "not responding".data, "passed out".data, "fainted".data]),
    ("bleeding".data, ["bleeding".data, "profuse bleed".data, "blood everywhere".data]),
    ("seizure".data, ["seizure".data, "fitting".data, "convulsion".data]),
    ("stroke_signs".data, ["face droop".data, "arm weakness".data, "slurred speech".data, "stroke".data]),
    ("fever".data, ["fever".data, "temperature".data, "high temp".data, "pyrexia".data]),
    ("pain".data, ["pain".data, "ache".data, "hurts".data]) ]

-- Flag name constants.
def uncL : Str := "unconscious".data
def bleedL : Str := "bleeding".data
def chestL : Str := "chest_pain".data
def breathL : Str := "breathlessness".data
def seizL : Str := "seizure".data
def strokeL : Str := "stroke_signs".data
def feverL : Str := "fever".data

-- Level name constants.
def critL : Str := "Critical".data
def alsL : Str := "ALS".data
def blsL : Str := "BLS".data
def genL : Str := "General".data

/-
_flags_from_text (lines 63-71): collect every category with a matching
phrase in the lowered text, then return them sorted (Python sorted on
strings: lexicographic by code point).
-/
def strLe : Str → Str → Bool
  | [], _ => true
  | _ :: _, [] => false
  | c :: cs, d :: ds => if c == d then strLe cs ds else decide (c < d)

def insertLe (x : Str) : List Str → List Str
  | [] => [x]
  | y :: ys => if strLe x y then x :: y :: ys else y :: insertLe x ys

def sortStrs : List Str → List Str
  | [] => []
  | x :: xs => insertLe x (sortStrs xs)

def flagsFromText (text : Str) : List Str :=
  let low := pyLower text
  let found := emsSymptoms.filterMap fun e =>
    if e.2.any (fun p => strIn p low) then some e.1 else none
  sortStrs found

/-
_AGE_RX = \b(\d{1,3})\s*(?:y|yr|yrs|years?)\b with re.I, and re.search
(leftmost match).  Modeled with the backtracking order of the engine:
the digit group tries 3, then 2, then 1 digits; \s* can only succeed by
consuming the whole whitespace run (the unit starts with a non-space);
the unit alternation tries y, yr, yrs, years, year, each followed by a
word boundary.
-/
def matchLit : Str → Str → Option Str
  | [], rest => some rest
  | _ :: _, [] => none
  | p :: ps, c :: cs => if c.toLower == p then matchLit ps cs else none

-- Word boundary after a word character: end of input or a non-word char.
def boundaryAfter : Str → Bool
  | [] => true
  | c :: _ => !isWordChar c

def matchUnitTail (s : Str) : Bool :=
  (match matchLit "y".data s with | some r => boundaryAfter r | none => false) ||
  (match matchLit "yr".data s with | some r => boundaryAfter r | none => false) ||
  (match matchLit "yrs".data s with | some r => boundaryAfter r | none => false) ||
  (match matchLit "years".data s with | some r => boundaryAfter r | none => false) ||
  (match matchLit "year".data s with | some r => boundaryAfter r | none => false)

-- Try a match starting here with exactly k digits in the group.
def tryK (s : Str) (k : Nat) : Option Str :=
  let ds := s.take k
  if ds.length == k && ds.all Char.isDigit then
    if matchUnitTail ((s.drop k).dropWhile isPySpace) then some ds else none
  else none

-- Leftmost search; prev is the character before the current position,
-- used for the leading word boundary (a digit is a word character, so
-- the boundary holds iff prev is absent or a non-word character).
def searchAge (prev : Option Char) : Str → Option Str
  | [] => none
  | c :: cs =>
    let startOk := match prev with | none => true | some p => !isWordChar p
    if startOk then
      match tryK (c :: cs) 3 with
      | some ds => some ds
      | none =>
        match tryK (c :: cs) 2 with
        | some ds => some ds
        | none =>
          match tryK (c :: cs) 1 with
          | some ds => some ds
          | none => searchAge (some c) cs
    else searchAge (some c) cs

def digitsToInt (ds : Str) : Int :=
  ds.foldl (fun a c => a * 10 + (Int.ofNat (c.toNat - 48))) 0

/-
_extract_age (lines 51-61).  Note the source: after the in-range early
return, the function STILL returns age (line 61), so an out-of-range
parsed value is returned, not discarded.  The dead range test is kept
here to mirror the control flow.
-/
def extractAge (text : Str) : Option Int :=
  match searchAge none text with
  | none => none
  | some ds =>
    let age := digitsToInt ds
    if 0 ≤ age ∧ age ≤ 120 then some age else some age

/-
_level_from_flags (lines 73-83), at the annotated types
(flags: List[str], age: Optional[int]).  set(flags) & S is non-empty
iff some element of flags lies in S; the truthiness of set(flags) is
the non-emptiness of flags.
-/
def levelFromFlags (flags : List Str) (age : Option Int) : Str :=
  if flags.any (fun x => x == uncL || x == bleedL) then critL
  else if flags.any (fun x => x == chestL || x == breathL || x == seizL || x == strokeL) then alsL
  else if (match age with
           | some a => decide (a < 12) || decide (75 < a)
           | none => false) && !flags.isEmpty then alsL
  else if flags.isEmpty then genL else blsL

/-
A universe of Python values for the dynamically typed path of
_redflags_core: None, int, str, list, dict with string keys.  (bool,
float, tuple and set are outside the modeled universe; a JSON-shaped
input never produces them except bool/float, which the claims do not
exercise.)
-/
inductive PyVal where
  | none
  | int (n : Int)
  | str (s : Str)
  | list (xs : List PyVal)
  | dict (kvs : List (Str × PyVal))

inductive PyErr where
  | invalidParams   -- McpError with code INVALID_PARAMS
  | typeError       -- an uncaught Python TypeError
deriving DecidableEq

-- dict.get: first binding of the key (Python keys are unique).
def lookupPy (kvs : List (Str × PyVal)) (k : Str) : Option PyVal :=
  match kvs with
  | [] => Option.none
  | (k2, v) :: t => if k2 == k then some v else lookupPy t k

-- list(v): lists stay, strings give their characters as 1-char strings,
-- dicts give their keys; None and int are not iterable (TypeError).
def pyList : PyVal → Except PyErr (List PyVal)
  | .list xs => .ok xs
  | .str s => .ok (s.map (fun c => .str [c]))
  | .dict kvs => .ok (kvs.map (fun kv => .str kv.1))
  | _ => .error .typeError

-- set() membership needs hashable elements; list and dict are not.
def pyHashable : PyVal → Bool
  | .list _ => false
  | .dict _ => false
  | _ => true

def isCritFlag : PyVal → Bool
  | .str s => s == uncL || s == bleedL
  | _ => false

def isAlsFlag : PyVal → Bool
  | .str s => s == chestL || s == breathL || s == seizL || s == strokeL
  | _ => false

/-
_level_from_flags as reached from _redflags_core, where flags may hold
arbitrary values and age is whatever structured.get("age_years") gave.
set(flags or []) raises TypeError on an unhashable element; the age
comparison age < 12 raises TypeError when age is neither None nor an
int (evaluated before the final "and f", so even with empty flags).
-/
def levelFromFlagsPy (flags : List PyVal) (age : PyVal) : Except PyErr Str :=
  if !flags.all pyHashable then .error .typeError
  else if flags.any isCritFlag then .ok critL
  else if flags.any isAlsFlag then .ok alsL
  else match age with
    | .none => .ok (if flags.isEmpty then genL else blsL)
    | .int a =>
      if (decide (a < 12) || decide (75 < a)) && !flags.isEmpty then .ok alsL
      else .ok (if flags.isEmpty then genL else blsL)
    | _ => .error .typeError

def flagsKey : Str := "flags".data
def ageKey : Str := "age_years".data

structure RedflagsOut where
  level_of_care : Str
  out_flags : List PyVal
  out_age : PyVal

-- structured.get("age_years"): None when the key is absent.
def pyGetAge (kvs : List (Str × PyVal)) : PyVal :=
  (lookupPy kvs ageKey).getD .none

/-
_redflags_core (lines 100-106): InvalidInput (INVALID_PARAMS) only when
structured is not a dict; then flags = list(structured.get("flags", []))
and level = _level_from_flags(flags, structured.get("age_years")).
-/
def redflagsCore : PyVal → Except PyErr RedflagsOut
  | .dict kvs =>
    match pyList ((lookupPy kvs flagsKey).getD (.list [])) with
    | .error e => .error e
    | .ok flags =>
      match levelFromFlagsPy flags (pyGetAge kvs) with
      | .error e => .error e
      | .ok level => .ok ⟨level, flags, pyGetAge kvs⟩
  | _ => .error .invalidParams

structure ExtractOut where
  age_years : Option Int
  free_text : Str
  flags : List Str
  symptoms : List Str

/-
symptom_extract_tool (lines 89-98): reject empty/whitespace-only text,
take the explicit hint verbatim when given, else parse; the returned
record repeats flags under the extra key "symptoms" and echoes text.
-/
def symptomExtract (text : Str) (age_hint : Option Int) : Except PyErr ExtractOut :=
  if (pyStrip text).isEmpty then .error .invalidParams
  else
    let age := match age_hint with
               | some a => some a
               | none => extractAge text
    let flags := flagsFromText text
    .ok ⟨age, text, flags, flags⟩

-- The dict literal returned at line 98, in source key order.
def freeTextKey : Str := "free_text".data
def symptomsKey : Str := "symptoms".data

def ageToPy : Option Int → PyVal
  | some n => .int n
  | none => .none

def recordToPy (r : ExtractOut) : PyVal :=
  .dict [ (ageKey, ageToPy r.age_years),
          (freeTextKey, .str r.free_text),
          (flagsKey, .list (r.flags.map PyVal.str)),
          (symptomsKey, .list (r.symptoms.map PyVal.str)) ]

-- extract_signals composed with classify_severity, keeping the level.
def pipeline (text : Str) (hint : Option Int) : Except PyErr Str :=
  match symptomExtract text hint with
  | .error e => .error e
  | .ok r =>
    match redflagsCore (recordToPy r) with
    | .error e => .error e
    | .ok out => .ok out.level_of_care

/-
find_hospital_tool (lines 112-134).  The haversine distance and the
2-decimal rounding are computed on IEEE-754 doubles in the source; they
enter the model as abstract parameters dist, round2 and a strict
comparison lt on the distance type, which is all the structural claims
need.  min with a key returns the FIRST element with minimal key
(replace only on strictly smaller), and min of an empty sequence
raises - the locator has no facility to report (the empty-registry
failure the spec names NoFacilityAvailable).
-/
structure Facility (α : Type) where
  name : Str
  flat : α
  flng : α
  phone : Option Str
  ambulance_phone : Option Str

structure LocResult (β : Type) where
  nearest_hospital : Str
  phone : Option Str
  distance_km : β

inductive LocErr where
  | noFacilityAvailable
deriving DecidableEq

-- Python min(seq, key=k): left fold keeping the first minimum.
def minByFirst {α β : Type} (key : α → β) (lt : β → β → Bool) : List α → Option α
  | [] => Option.none
  | h :: t => some (t.foldl (fun best x => if lt (key x) (key best) then x else best) h)

-- a or b on optional strings: empty or missing strings are falsy.
def pyOrStr (a b : Option Str) : Option Str :=
  match a with
  | some s => if s.isEmpty then b else some s
  | Option.none => b

def findHospital {α β : Type} (dist : α → α → α → α → β) (round2 : β → β)
    (lt : β → β → Bool) (severity : Str) (lat lng : α)
    (hospitals : List (Facility α)) : Except LocErr (LocResult β) :=
  match minByFirst (fun h => dist lat lng h.flat h.flng) lt hospitals with
  | Option.none => .error .noFacilityAvailable
  | some nearest =>
    .ok ⟨nearest.name, pyOrStr nearest.ambulance_phone nearest.phone,
         round2 (dist lat lng nearest.flat nearest.flng)⟩

/-
The classifier decision table exactly as the specification words it
(section 4.2): five rules, first match wins, over a flag set and an
optional age.
-/
def ageEsc (age : Option Int) : Prop :=
  match age with
  | some a => a < 12 ∨ 75 < a
  | none => False

instance (age : Option Int) : Decidable (ageEsc age) :=
  match age with
  | some a => inferInstanceAs (Decidable (_ ∨ _))
  | none => inferInstanceAs (Decidable False)

def specLevel (flags : List Str) (age : Option Int) : Str :=
  if uncL ∈ flags ∨ bleedL ∈ flags then critL
  else if chestL ∈ flags ∨ breathL ∈ flags ∨ seizL ∈ flags ∨ strokeL ∈ flags then alsL
  else if ageEsc age ∧ flags ≠ [] then alsL
  else if flags ≠ [] then blsL
  else genL

-- The ordering Critical > ALS > BLS > General of section 3.
def sevRank (s : Str) : Nat :=
  if s == critL then 3 else if s == alsL then 2 else if s == blsL then 1 else 0

/-
Helper lemmas.
-/

theorem any_two_mem (l : List Str) (a b : Str) :
    (l.any fun x => x == a || x == b) = true ↔ a ∈ l ∨ b ∈ l := by
  simp only [List.any_eq_true, Bool.or_eq_true, beq_iff_eq]
  constructor
  · rintro ⟨x, hx, h | h⟩
    · exact Or.inl (h ▸ hx)
    · exact Or.inr (h ▸ hx)
  · rintro (h | h)
    · exact ⟨a, h, Or.inl rfl⟩
    · exact ⟨b, h, Or.inr rfl⟩

theorem any_four_mem (l : List Str) (a b c d : Str) :
    (l.any fun x => x == a || x == b || x == c || x == d) = true ↔
      a ∈ l ∨ b ∈ l ∨ c ∈ l ∨ d ∈ l := by
  simp only [List.any_eq_true, Bool.or_eq_true, beq_iff_eq]
  constructor
  · rintro ⟨x, hx, ((h | h) | h) | h⟩
    · exact Or.inl (h ▸ hx)
    · exact Or.inr (Or.inl (h ▸ hx))
    · exact Or.inr (Or.inr (Or.inl (h ▸ hx)))
    · exact Or.inr (Or.inr (Or.inr (h ▸ hx)))
  · rintro (h | h | h | h)
    · exact ⟨a, h, Or.inl (Or.inl (Or.inl rfl))⟩
    · exact ⟨b, h, Or.inl (Or.inl (Or.inr rfl))⟩
    · exact ⟨c, h, Or.inl (Or.inr rfl)⟩
    · exact ⟨d, h, Or.inr rfl⟩

theorem mem_insertLe (x y : Str) (l : List Str) :
    y ∈ insertLe x l ↔ y = x ∨ y ∈ l := by
  induction l with
  | nil => simp [insertLe]
  | cons z t ih =>
    simp only [insertLe]
    split
    · simp
    · simp only [List.mem_cons, ih]
      tauto

theorem mem_sortStrs (y : Str) (l : List Str) : y ∈ sortStrs l ↔ y ∈ l := by
  induction l with
  | nil => simp [sortStrs]
  | cons x t ih => simp [sortStrs, mem_insertLe, ih]

theorem strIn_head_mem (c : Char) (p l : Str) (h : strIn (c :: p) l = true) : c ∈ l := by
  induction l with
  | nil => simp [strIn, isPrefixStr] at h
  | cons d t ih =>
    simp only [strIn, Bool.or_eq_true] at h
    rcases h with h | h
    · simp only [isPrefixStr, Bool.and_eq_true, beq_iff_eq] at h
      exact h.1 ▸ List.mem_cons_self d t
    · exact List.mem_cons_of_mem d (ih h)

theorem pyStrip_ne_nil (t : Str) (c : Char) (hc : c ∈ t) (hs : isPySpace c = false) :
    (pyStrip t).isEmpty = false := by
  rw [Bool.eq_false_iff]
  intro he
  rw [List.isEmpty_iff] at he
  have h1 : (t.dropWhile isPySpace).reverse.dropWhile isPySpace = [] := by
    have := congrArg List.reverse he
    simpa [pyStrip, dropTrail] using this
  have h2 : ∀ x ∈ t.dropWhile isPySpace, isPySpace x = true := by
    intro x hx
    exact List.dropWhile_eq_nil_iff.mp h1 x (List.mem_reverse.mpr hx)
  have h3 : ∀ x ∈ t, isPySpace x = true := by
    intro x hx
    rw [← List.takeWhile_append_dropWhile (p := isPySpace) (l := t)] at hx
    rcases List.mem_append.mp hx with h | h
    · exact List.mem_takeWhile_imp h
    · exact h2 x h
  rw [h3 c hc] at hs
  exact Bool.true_eq_false.mp hs

theorem level_crit (flags : List Str) (age : Option Int)
    (h : uncL ∈ flags ∨ bleedL ∈ flags) : levelFromFlags flags age = critL := by
  have h1 : (flags.any fun x => x == uncL || x == bleedL) = true :=
    (any_two_mem flags uncL bleedL).mpr h
  simp [levelFromFlags, h1]

theorem level_als (flags : List Str) (age : Option Int)
    (h1 : ¬(uncL ∈ flags ∨ bleedL ∈ flags))
    (h2 : chestL ∈ flags ∨ breathL ∈ flags ∨ seizL ∈ flags ∨ strokeL ∈ flags) :
    levelFromFlags flags age = alsL := by
  have e1 : (flags.any fun x => x == uncL || x == bleedL) = false := by
    rw [Bool.eq_false_iff]
    intro hh
    exact h1 ((any_two_mem flags uncL bleedL).mp hh)
  have e2 : (flags.any fun x => x == chestL || x == breathL || x == seizL || x == strokeL) = true :=
    (any_four_mem flags chestL breathL seizL strokeL).mpr h2
  simp [levelFromFlags, e1, e2]

theorem low_level_no_crit (flags : List Str) (age : Option Int)
    (h : levelFromFlags flags age = genL ∨ levelFromFlags flags age = blsL) :
    ¬(uncL ∈ flags ∨ bleedL ∈ flags) := by
  intro hc
  have hcr := level_crit flags age hc
  rcases h with h | h
  · rw [hcr] at h
    exact absurd h (by decide)
  · rw [hcr] at h
    exact absurd h (by decide)

theorem space_toLower_self (d : Char) (h : isPySpace d = true) : d.toLower = d := by
  simp only [isPySpace, Bool.or_eq_true, beq_iff_eq] at h
  rcases h with ((((h | h) | h) | h) | h) | h <;> subst h <;> decide

theorem lower_u_not_space (d : Char) (h : d.toLower = 'u') : isPySpace d = false := by
  rw [Bool.eq_false_iff]
  intro hs
  rw [space_toLower_self d hs] at h
  subst h
  exact absurd hs (by decide)

theorem lower_b_not_space (d : Char) (h : d.toLower = 'b') : isPySpace d = false := by
  rw [Bool.eq_false_iff]
  intro hs
  rw [space_toLower_self d hs] at h
  subst h
  exact absurd hs (by decide)

theorem valid_of_lower_mem (text : Str) (c : Char)
    (hc : c ∈ pyLower text) (hns : ∀ d : Char, d.toLower = c → isPySpace d = false) :
    (pyStrip text).isEmpty = false := by
  rcases List.mem_map.mp hc with ⟨d, hd, hl⟩
  exact pyStrip_ne_nil text d hd (hns d hl)

theorem flagsFromText_mem_unc (text : Str) (h : strIn uncL (pyLower text) = true) :
    uncL ∈ flagsFromText text := by
  rw [flagsFromText, mem_sortStrs]
  apply List.mem_filterMap.mpr
  refine ⟨(uncL, ["unconscious".data, "not responding".data, "passed out".data, "fainted".data]), ?_, ?_⟩
  · simp [emsSymptoms, uncL]
  · have ha : (["unconscious".data, "not responding".data, "passed out".data,
        "fainted".data].any fun p => strIn p (pyLower text)) = true := by
      apply List.any_eq_true.mpr
      exact ⟨uncL, by simp [uncL], h⟩
    simp [ha]

theorem flagsFromText_mem_bleed (text : Str) (h : strIn bleedL (pyLower text) = true) :
    bleedL ∈ flagsFromText text := by
  rw [flagsFromText, mem_sortStrs]
  apply List.mem_filterMap.mpr
  refine ⟨(bleedL, ["bleeding".data, "profuse bleed".data, "blood everywhere".data]), ?_, ?_⟩
  · simp [emsSymptoms, bleedL]
  · have ha : (["bleeding".data, "profuse bleed".data,
        "blood everywhere".data].any fun p => strIn p (pyLower text)) = true := by
      apply List.any_eq_true.mpr
      exact ⟨bleedL, by simp [bleedL], h⟩
    simp [ha]

theorem all_hashable_map (l : List Str) : (l.map PyVal.str).all pyHashable = true := by
  apply List.all_eq_true.mpr
  intro x hx
  rcases List.mem_map.mp hx with ⟨s, _, rfl⟩
  rfl

theorem redflags_record_crit (r : ExtractOut)
    (h : uncL ∈ r.flags ∨ bleedL ∈ r.flags) :
    redflagsCore (recordToPy r) =
      .ok ⟨critL, r.flags.map PyVal.str, ageToPy r.age_years⟩ := by
  have hcrit : ((r.flags.map PyVal.str).any isCritFlag) = true := by
    apply List.any_eq_true.mpr
    rcases h with h | h
    · exact ⟨PyVal.str uncL, List.mem_map_of_mem PyVal.str h, by simp [isCritFlag]⟩
    · exact ⟨PyVal.str bleedL, List.mem_map_of_mem PyVal.str h, by simp [isCritFlag]⟩
  have hlev : levelFromFlagsPy (r.flags.map PyVal.str) (ageToPy r.age_years) = .ok critL := by
    simp [levelFromFlagsPy, all_hashable_map, hcrit]
  have hlook : lookupPy [ (ageKey, ageToPy r.age_years),
      (freeTextKey, PyVal.str r.free_text),
      (flagsKey, PyVal.list (r.flags.map PyVal.str)),
      (symptomsKey, PyVal.list (r.symptoms.map PyVal.str)) ] flagsKey =
      some (PyVal.list (r.flags.map PyVal.str)) := rfl
  have hage : pyGetAge [ (ageKey, ageToPy r.age_years),
      (freeTextKey, PyVal.str r.free_text),
      (flagsKey, PyVal.list (r.flags.map PyVal.str)),
      (symptomsKey, PyVal.list (r.symptoms.map PyVal.str)) ] = ageToPy r.age_years := rfl
  simp [recordToPy, redflagsCore, hlook, hage, pyList, hlev]

/-
Claim theorems.
-/

/-- C1: the specification says a parsed age outside [0,120] is discarded
(age_years = none), but in the source the range test at line 57 is
followed by an unconditional return of the same value at line 61, so
"age 150 years" yields age_years = 150 instead of none; the two spec
examples for the in-range and no-match cases do hold. -/
theorem c1_out_of_range_age_is_returned :
    extractAge ("age 150 years".data) = some 150 ∧
    extractAge ("a 34 yr old patient".data) = some 34 ∧
    extractAge ("no age mentioned".data) = Option.none :=
  ⟨rfl, rfl, rfl⟩

/-- C2: for every severity label and every coordinate pair (over any
coordinate and distance type, any distance function, any rounding and
any comparison), the locator applied to an empty facilities sequence
fails with the no-facility-available error, the unique empty-registry
failure of the locator. -/
theorem c2_empty_facilities_fail {α β : Type} (dist : α → α → α → α → β)
    (round2 : β → β) (lt : β → β → Bool) (severity : Str) (lat lng : α) :
    findHospital dist round2 lt severity lat lng [] = .error .noFacilityAvailable :=
  rfl

/-- C8: the severity label does not influence the locator result: for any
two severity labels and the same coordinates and facilities, the outputs
are identical, whatever the distance function, rounding and comparison. -/
theorem c8_severity_noninterference {α β : Type} (dist : α → α → α → α → β)
    (round2 : β → β) (lt : β → β → Bool) (sev1 sev2 : Str) (lat lng : α)
    (hospitals : List (Facility α)) :
    findHospital dist round2 lt sev1 lat lng hospitals =
      findHospital dist round2 lt sev2 lat lng hospitals :=
  rfl

/-- C10: for every valid (non-whitespace-only) text and any optional age
hint, the extract operation returns a record whose undocumented symptoms
field equals its flags field and whose free_text is the input unchanged. -/
theorem c10_symptoms_equals_flags (text : Str) (hint : Option Int)
    (h : (pyStrip text).isEmpty = false) :
    ∃ r, symptomExtract text hint = .ok r ∧ r.symptoms = r.flags ∧ r.free_text = text := by
  refine ⟨⟨match hint with
           | some a => some a
           | none => extractAge text, text, flagsFromText text, flagsFromText text⟩,
         ?_, rfl, rfl⟩
  simp [symptomExtract, h]

/-- Witness for C10 at a concrete input. -/
theorem c10_symptoms_equals_flags_witness :
    (pyStrip ("high fever".data)).isEmpty = false ∧
    ∃ r, symptomExtract ("high fever".data) Option.none = .ok r ∧
      r.symptoms = r.flags ∧ r.free_text = "high fever".data :=
  ⟨rfl, c10_symptoms_equals_flags ("high fever".data) Option.none rfl⟩

/-- C9: a dict input that lacks the flags key (or maps it to an empty
list) does not fail: the classifier treats flags as empty and returns
level General with the age_years value of the input passed through
(the age being absent, None or an integer, as the pipeline produces). -/
theorem c9_missing_flags_gives_general (kvs : List (Str × PyVal))
    (hf : lookupPy kvs flagsKey = Option.none ∨
          lookupPy kvs flagsKey = some (PyVal.list []))
    (ha : pyGetAge kvs = PyVal.none ∨ ∃ n, pyGetAge kvs = PyVal.int n) :
    redflagsCore (.dict kvs) = .ok ⟨genL, [], pyGetAge kvs⟩ := by
  have hfl : pyList ((lookupPy kvs flagsKey).getD (.list [])) = .ok [] := by
    rcases hf with h | h <;> rw [h] <;> rfl
  have hlev : levelFromFlagsPy [] (pyGetAge kvs) = .ok genL := by
    rcases ha with h | ⟨n, h⟩ <;> rw [h] <;> simp [levelFromFlagsPy]
  simp [redflagsCore, hfl, hlev]

/-- Witness for C9 at a concrete input: age 80 and no flags key. -/
theorem c9_missing_flags_gives_general_witness :
    lookupPy [(ageKey, PyVal.int 80)] flagsKey = Option.none ∧
    redflagsCore (.dict [(ageKey, PyVal.int 80)]) =
      .ok ⟨genL, [], PyVal.int 80⟩ :=
  ⟨rfl, c9_missing_flags_gives_general [(ageKey, PyVal.int 80)]
    (Or.inl rfl) (Or.inr ⟨80, rfl⟩)⟩

theorem pyList_error_eq (v : PyVal) (e : PyErr) (h : pyList v = .error e) :
    e = .typeError := by
  cases v with
  | none => exact (Except.error.inj h).symm
  | int n => exact (Except.error.inj h).symm
  | str s => exact Except.noConfusion h
  | list xs => exact Except.noConfusion h
  | dict kvs => exact Except.noConfusion h

theorem levelPy_error_eq (flags : List PyVal) (age : PyVal) (e : PyErr)
    (h : levelFromFlagsPy flags age = .error e) : e = .typeError := by
  unfold levelFromFlagsPy at h
  repeat' split at h
  all_goals
    first
    | exact Except.noConfusion h fun he => he.symm
    | exact Except.noConfusion h

-- On a dict input the only failure either stage can produce is the
-- TypeError; the INVALID_PARAMS error is unreachable past the isinstance
-- test.
theorem redflags_dict_not_invalid (kvs : List (Str × PyVal)) :
    redflagsCore (.dict kvs) ≠ .error .invalidParams := by
  intro h
  simp only [redflagsCore] at h
  split at h
  next e heq =>
    have he := pyList_error_eq _ e heq
    subst he
    exact PyErr.noConfusion (Except.error.inj h)
  next flags heq =>
    split at h
    next e2 heq2 =>
      have he := levelPy_error_eq _ _ e2 heq2
      subst he
      exact PyErr.noConfusion (Except.error.inj h)
    next level heq2 =>
      exact Except.noConfusion h

/-- C7 counterexample: with flags bound to the non-container 5, the
classify operation fails with an uncaught TypeError (from list(5)),
NOT with the InvalidInput (INVALID_PARAMS) error the claim states. -/
theorem c7_flags_noncontainer_counterexample :
    redflagsCore (.dict [(flagsKey, PyVal.int 5)]) = .error .typeError ∧
    redflagsCore (.dict [(flagsKey, PyVal.int 5)]) ≠ .error .invalidParams := by
  refine ⟨rfl, ?_⟩
  intro h
  rw [show redflagsCore (.dict [(flagsKey, PyVal.int 5)]) =
      Except.error PyErr.typeError from rfl] at h
  exact PyErr.noConfusion (Except.error.inj h)

/-- C7 amended: the classify operation fails with InvalidInput
(INVALID_PARAMS) exactly when the structured argument itself is not a
dict - a non-dict always gives InvalidInput, a dict never does; a dict
whose flags value is a non-iterable (an int or None) makes the
operation fail with an uncaught TypeError instead of InvalidInput. -/
theorem c7_amended_noncontainer_flags_type_error :
    (∀ kvs v, lookupPy kvs flagsKey = some v →
       (v = PyVal.none ∨ ∃ n, v = PyVal.int n) →
       redflagsCore (.dict kvs) = .error .typeError) ∧
    (∀ v, (∀ kvs, v ≠ PyVal.dict kvs) → redflagsCore v = .error .invalidParams) ∧
    (∀ kvs, redflagsCore (.dict kvs) ≠ .error .invalidParams) := by
  refine ⟨?_, ?_, redflags_dict_not_invalid⟩
  · intro kvs v hv hnc
    rcases hnc with h | ⟨n, h⟩ <;> subst h <;> simp [redflagsCore, hv, pyList]
  · intro v hv
    cases v with
    | none => rfl
    | int n => rfl
    | str s => rfl
    | list xs => rfl
    | dict kvs => exact absurd rfl (hv kvs)

/-- Witness for the amended C7 at concrete inputs: None-valued flags
give TypeError, a non-dict input gives InvalidInput, and a dict input
(here with an unhashable flags element too) does not give InvalidInput. -/
theorem c7_amended_noncontainer_flags_type_error_witness :
    redflagsCore (.dict [(flagsKey, PyVal.none)]) = .error .typeError ∧
    redflagsCore (PyVal.int 0) = .error .invalidParams ∧
    redflagsCore (.dict [(flagsKey, PyVal.list [PyVal.list []])]) ≠
      .error .invalidParams :=
  ⟨c7_amended_noncontainer_flags_type_error.1 [(flagsKey, PyVal.none)]
      PyVal.none rfl (Or.inl rfl),
   c7_amended_noncontainer_flags_type_error.2.1 (PyVal.int 0)
      (fun kvs h => PyVal.noConfusion h),
   c7_amended_noncontainer_flags_type_error.2.2
      [(flagsKey, PyVal.list [PyVal.list []])]⟩

/-- C5: any text containing "unconscious" or "bleeding" in any letter
case (stated as: the lowered text contains the lowercase phrase) makes
the extract-then-classify pipeline return level Critical, whatever
other flags co-occur and whatever the age hint. -/
theorem c5_critical_words_force_critical (text : Str) (hint : Option Int)
    (h : strIn uncL (pyLower text) = true ∨ strIn bleedL (pyLower text) = true) :
    pipeline text hint = .ok critL := by
  have hvalid : (pyStrip text).isEmpty = false := by
    rcases h with h | h
    · exact valid_of_lower_mem text 'u'
        (strIn_head_mem 'u' ("nconscious".data) (pyLower text) h) lower_u_not_space
    · exact valid_of_lower_mem text 'b'
        (strIn_head_mem 'b' ("leeding".data) (pyLower text) h) lower_b_not_space
  have hmem : uncL ∈ flagsFromText text ∨ bleedL ∈ flagsFromText text := by
    rcases h with h | h
    · exact Or.inl (flagsFromText_mem_unc text h)
    · exact Or.inr (flagsFromText_mem_bleed text h)
  have hse : symptomExtract text hint = .ok
      ⟨(match hint with
        | some a => some a
        | none => extractAge text), text, flagsFromText text, flagsFromText text⟩ := by
    simp [symptomExtract, hvalid]
  have hrf : ∀ av : Option Int,
      redflagsCore (recordToPy ⟨av, text, flagsFromText text, flagsFromText text⟩) =
        .ok ⟨critL, (flagsFromText text).map PyVal.str, ageToPy av⟩ :=
    fun av => redflags_record_crit ⟨av, text, flagsFromText text, flagsFromText text⟩ hmem
  simp [pipeline, hse, hrf]

/-- Witness for C5 at a concrete input with a co-occurring flag. -/
theorem c5_critical_words_force_critical_witness :
    (strIn uncL (pyLower ("Help - UNCONSCIOUS with chest pain".data)) = true ∨
     strIn bleedL (pyLower ("Help - UNCONSCIOUS with chest pain".data)) = true) ∧
    pipeline ("Help - UNCONSCIOUS with chest pain".data) Option.none = .ok critL :=
  ⟨Or.inl rfl,
   c5_critical_words_force_critical ("Help - UNCONSCIOUS with chest pain".data)
     Option.none (Or.inl rfl)⟩

/-- C3: the classifier agrees everywhere with the five-rule decision
table of the specification (first matching rule wins), and an empty
flag set yields General for every age. -/
theorem c3_decision_table (flags : List Str) (age : Option Int) :
    levelFromFlags flags age = specLevel flags age ∧
    levelFromFlags [] age = genL := by
  constructor
  · by_cases hc : uncL ∈ flags ∨ bleedL ∈ flags
    · rw [level_crit flags age hc, specLevel, if_pos hc]
    · have e1 : (flags.any fun x => x == uncL || x == bleedL) = false := by
        rw [Bool.eq_false_iff]
        intro hh
        exact hc ((any_two_mem flags uncL bleedL).mp hh)
      by_cases ha : chestL ∈ flags ∨ breathL ∈ flags ∨ seizL ∈ flags ∨ strokeL ∈ flags
      · rw [level_als flags age hc ha, specLevel, if_neg hc, if_pos ha]
      · have e2 : (flags.any fun x =>
            x == chestL || x == breathL || x == seizL || x == strokeL) = false := by
          rw [Bool.eq_false_iff]
          intro hh
          exact ha ((any_four_mem flags chestL breathL seizL strokeL).mp hh)
        rw [specLevel, if_neg hc, if_neg ha]
        cases age with
        | none =>
          have hesc : ¬(ageEsc Option.none ∧ flags ≠ []) := fun hx => hx.1
          rw [if_neg hesc]
          cases flags with
          | nil => simp [levelFromFlags]
          | cons x t => simp [levelFromFlags, e1, e2]
        | some a =>
          by_cases he : a < 12 ∨ 75 < a
          · have hb : (decide (a < 12) || decide (75 < a)) = true := by
              rcases he with h | h <;> simp [h]
            cases flags with
            | nil =>
              have hesc : ¬(ageEsc (some a) ∧ ([] : List Str) ≠ []) := fun hx => hx.2 rfl
              rw [if_neg hesc]
              simp [levelFromFlags]
            | cons x t =>
              have hesc : ageEsc (some a) ∧ (x :: t : List Str) ≠ [] :=
                ⟨he, by simp⟩
              rw [if_pos hesc]
              simp [levelFromFlags, e1, e2, hb]
          · have hb : (decide (a < 12) || decide (75 < a)) = false := by
              rw [not_or] at he
              simp [he.1, he.2]
            have hesc : ¬(ageEsc (some a) ∧ flags ≠ []) := fun hx => he hx.1
            rw [if_neg hesc]
            cases flags with
            | nil => simp [levelFromFlags]
            | cons x t => simp [levelFromFlags, e1, e2, hb]
  · cases age with
    | none => simp [levelFromFlags]
    | some a => simp [levelFromFlags]

/-- C6: classification is monotone under flag addition: adding
unconscious or bleeding to any flag list gives Critical, and adding one
of the four ALS flags to a list that classified General or BLS gives a
level ranked at least ALS. -/
theorem c6_monotonicity (flags : List Str) (age : Option Int) (c : Str) :
    ((c = uncL ∨ c = bleedL) → levelFromFlags (c :: flags) age = critL) ∧
    ((c = chestL ∨ c = breathL ∨ c = seizL ∨ c = strokeL) →
      (levelFromFlags flags age = genL ∨ levelFromFlags flags age = blsL) →
      sevRank alsL ≤ sevRank (levelFromFlags (c :: flags) age)) := by
  constructor
  · intro hcf
    apply level_crit
    rcases hcf with h | h
    · exact Or.inl (h ▸ List.mem_cons_self c flags)
    · exact Or.inr (h ▸ List.mem_cons_self c flags)
  · intro hcf hlow
    have hnc := low_level_no_crit flags age hlow
    have hcne : c ≠ uncL ∧ c ≠ bleedL := by
      rcases hcf with h | h | h | h <;> subst h <;> exact ⟨by decide, by decide⟩
    have hnc2 : ¬(uncL ∈ c :: flags ∨ bleedL ∈ c :: flags) := by
      rintro (h | h)
      · rcases List.mem_cons.mp h with h2 | h2
        · exact hcne.1 h2.symm
        · exact hnc (Or.inl h2)
      · rcases List.mem_cons.mp h with h2 | h2
        · exact hcne.2 h2.symm
        · exact hnc (Or.inr h2)
    have hals : chestL ∈ c :: flags ∨ breathL ∈ c :: flags ∨
        seizL ∈ c :: flags ∨ strokeL ∈ c :: flags := by
      rcases hcf with h | h | h | h
      · exact Or.inl (h ▸ List.mem_cons_self c flags)
      · exact Or.inr (Or.inl (h ▸ List.mem_cons_self c flags))
      · exact Or.inr (Or.inr (Or.inl (h ▸ List.mem_cons_self c flags)))
      · exact Or.inr (Or.inr (Or.inr (h ▸ List.mem_cons_self c flags)))
    rw [level_als (c :: flags) age hnc2 hals]

/-- Witness for C6: adding unconscious to a fever case of age 80 gives
Critical, and adding chest_pain to an empty set gives at least ALS. -/
theorem c6_monotonicity_witness :
    levelFromFlags (uncL :: [feverL]) (some 80) = critL ∧
    sevRank alsL ≤ sevRank (levelFromFlags (chestL :: []) Option.none) :=
  ⟨(c6_monotonicity [feverL] (some 80) uncL).1 (Or.inl rfl),
   (c6_monotonicity [] Option.none chestL).2 (Or.inl rfl) (Or.inl rfl)⟩
